import Mathlib

/-!
Verification of the LoblawBio immune drug trial analysis pipeline
(ImmuneDrugTrialAnalysis.py and ImmuneDrugTrialDashboard.py).

The two scripts load a cell-count CSV into a SQLite database
(tables Subjects and Samples), derive a per-sample, per-population
percentage view (SampleCellFrequencies), run pooled-variance two-sample
t-tests on a fixed cohort, and render subset reports.

Shallow embedding conventions:
* SQL TEXT columns are String, INTEGER columns are Int.
* SQL REAL arithmetic is modelled over the rationals; division by zero
  yields NULL in SQLite, which is modelled as none in Option.
* Tables are lists of rows; SELECT DISTINCT is modelled by List.dedup
  (the set of distinct tuples; row order is immaterial to the claims).
* The Python sqlite3 executescript API commits any pending transaction
  and then runs the script statement by statement in autocommit mode,
  so a statement that aborts leaves the earlier statements of the same
  script committed.  The load is therefore modelled as a sequence of
  per-statement state transitions, not as one transaction.
-/

namespace LoblawBio

/-- A row of the staged CSV (table countCSVStaging, 15 columns in the
literal order of the CSV). -/
structure StagingRow where
  project : String
  subject : String
  condition : String
  age : Int
  sex : String
  treatment : String
  response : String
  sample : String
  sample_type : String
  time_from_treatment : Int
  b_cell : Int
  cd8_t_cell : Int
  cd4_t_cell : Int
  nk_cell : Int
  monocyte : Int
deriving DecidableEq

/-- A row of the Subjects table (PRIMARY KEY subject). -/
structure Subject where
  project : String
  subject : String
  condition : String
  age : Int
  sex : String
  treatment : String
  response : String
deriving DecidableEq

/-- A row of the Samples table (PRIMARY KEY sample,
FOREIGN KEY subject REFERENCES Subjects). -/
structure Sample where
  subject : String
  sample : String
  sample_type : String
  time_from_treatment : Int
  b_cell : Int
  cd8_t_cell : Int
  cd4_t_cell : Int
  nk_cell : Int
  monocyte : Int
deriving DecidableEq

/-- The persisted database contents: the two entity tables. -/
structure DB where
  subjects : List Subject
  samples : List Sample
deriving DecidableEq

/-! ## Frequency view (Part 2, SampleCellFrequencies) -/

/-- A row of the SampleCellFrequencies view.  The percentage column is
Option-valued because SQLite division by zero yields NULL. -/
structure FreqRecord where
  subject : String
  sample : String
  total_count : Int
  population : String
  count : Int
  percentage : Option ℚ
deriving DecidableEq

/-- SQLite division: x / 0 evaluates to NULL, modelled as none. -/
def sqlDiv (a b : ℚ) : Option ℚ := if b = 0 then none else some (a / b)

/-- total_count of the totals CTE:
b_cell + cd8_t_cell + cd4_t_cell + nk_cell + monocyte. -/
def totalCount (s : Sample) : Int :=
  s.b_cell + s.cd8_t_cell + s.cd4_t_cell + s.nk_cell + s.monocyte

/-- One SELECT branch of the view: the record for population pop of
sample s, with percentage 100.0 * count / total_count. -/
def freqRecord (pop : String) (cnt : Sample → Int) (s : Sample) : FreqRecord :=
  ⟨s.subject, s.sample, totalCount s, pop, cnt s,
    sqlDiv (100 * (cnt s : ℚ)) ((totalCount s : ℚ))⟩

/-- The five records the view emits for one sample, in the order of the
five UNION ALL branches. -/
def freqRecordsOf (s : Sample) : List FreqRecord :=
  [freqRecord "b_cell" Sample.b_cell s,
   freqRecord "cd8_t_cell" Sample.cd8_t_cell s,
   freqRecord "cd4_t_cell" Sample.cd4_t_cell s,
   freqRecord "nk_cell" Sample.nk_cell s,
   freqRecord "monocyte" Sample.monocyte s]

/-- The SampleCellFrequencies view: UNION ALL of the five per-population
SELECTs over the Samples table. -/
def SampleCellFrequencies (samples : List Sample) : List FreqRecord :=
  samples.map (freqRecord "b_cell" Sample.b_cell)
    ++ samples.map (freqRecord "cd8_t_cell" Sample.cd8_t_cell)
    ++ samples.map (freqRecord "cd4_t_cell" Sample.cd4_t_cell)
    ++ samples.map (freqRecord "nk_cell" Sample.nk_cell)
    ++ samples.map (freqRecord "monocyte" Sample.monocyte)

/-- A synthetic sample whose five counts are all 10. -/
def sampleTen : Sample := ⟨"sbj1", "smp1", "PBMC", 0, 10, 10, 10, 10, 10⟩

/-- A synthetic sample whose five counts are all 0. -/
def sampleZero : Sample := ⟨"sbj2", "smp2", "PBMC", 0, 0, 0, 0, 0, 0⟩

/-! ## Part 1: the CSV load (staging, SELECT DISTINCT, inserts)

The load script is
INSERT INTO Subjects SELECT DISTINCT ...; INSERT INTO Samples SELECT
DISTINCT ...; DROP TABLE countCSVStaging; executed through the sqlite3
executescript API, which runs statement by statement in autocommit mode:
a failing statement aborts as a whole (default ON CONFLICT ABORT) and
raises, but the statements before it stay committed. -/

/-- Projection of a staging row onto the seven subject columns
(SELECT DISTINCT project, subject, condition, age, sex, treatment,
response). -/
def subjectOfRow (r : StagingRow) : Subject :=
  ⟨r.project, r.subject, r.condition, r.age, r.sex, r.treatment, r.response⟩

/-- Projection of a staging row onto the nine sample columns. -/
def sampleOfRow (r : StagingRow) : Sample :=
  ⟨r.subject, r.sample, r.sample_type, r.time_from_treatment,
   r.b_cell, r.cd8_t_cell, r.cd4_t_cell, r.nk_cell, r.monocyte⟩

/-- SELECT DISTINCT over the subject projection: the distinct tuples
(row order is not load-bearing, so the dedup order is immaterial). -/
def distinctSubjects (staging : List StagingRow) : List Subject :=
  (staging.map subjectOfRow).dedup

/-- SELECT DISTINCT over the sample projection. -/
def distinctSamples (staging : List StagingRow) : List Sample :=
  (staging.map sampleOfRow).dedup

/-- The ways a load statement can abort: a primary key violation on
Subjects or Samples, or a foreign key violation on Samples. -/
inductive LoadError
  | subjectsPK
  | samplesPK
  | samplesFK
deriving DecidableEq

/-- INSERT INTO Subjects SELECT DISTINCT ...: the statement succeeds iff
the subject keys of the existing rows plus the inserted rows are pairwise
distinct; otherwise it aborts as a whole with a primary key violation and
leaves the table unchanged. -/
def insertSubjects (staging : List StagingRow) (st : DB) :
    Except LoadError DB :=
  if ((st.subjects ++ distinctSubjects staging).map Subject.subject).Nodup then
    .ok ⟨st.subjects ++ distinctSubjects staging, st.samples⟩
  else
    .error .subjectsPK

/-- INSERT INTO Samples SELECT DISTINCT ...: aborts as a whole on a
duplicate sample key or on a sample whose subject is absent from the
Subjects table (PRAGMA foreign_keys = ON).  SQLite surfaces the first
violating row; which violation class fires first at a given input is
immaterial to the claims, which only use the error class and the
resulting state. -/
def insertSamples (staging : List StagingRow) (st : DB) :
    Except LoadError DB :=
  if ((st.samples ++ distinctSamples staging).map Sample.sample).Nodup then
    if (distinctSamples staging).all
        (fun s => st.subjects.any (fun u => u.subject == s.subject)) then
      .ok ⟨st.subjects, st.samples ++ distinctSamples staging⟩
    else
      .error .samplesFK
  else
    .error .samplesPK

/-- The insert portion of the load script (lines 70-83), run statement by
statement in autocommit mode: when the Subjects insert fails the script
stops with the store unchanged; when the Samples insert fails the script
stops, but the Subjects insert stays committed. -/
def loadScript (staging : List StagingRow) (st : DB) : DB × Option LoadError :=
  match insertSubjects staging st with
  | .error e => (st, some e)
  | .ok st1 =>
    match insertSamples staging st1 with
    | .error e => (st1, some e)
    | .ok st2 => (st2, none)

/-- DROP TABLE IF EXISTS countCSVStaging / Samples / Subjects followed by
CREATE TABLE: whatever the previous store contents, the tables restart
empty. -/
def dropAndCreate (_ : DB) : DB := ⟨[], []⟩

/-- The whole Part 1 load: drop and re-create the tables, then run the
insert script on the staged CSV rows. -/
def fullLoad (staging : List StagingRow) (st : DB) : DB × Option LoadError :=
  loadScript staging (dropAndCreate st)

/-- A well-formed staged row. -/
def rowA : StagingRow :=
  ⟨"prj1", "sbj1", "melanoma", 70, "M", "miraclib", "yes",
   "smp1", "PBMC", 0, 1, 1, 1, 1, 1⟩

/-- Same sample code as rowA but a different b_cell count: a conflicting
duplicate sample. -/
def rowB : StagingRow :=
  ⟨"prj1", "sbj1", "melanoma", 70, "M", "miraclib", "yes",
   "smp1", "PBMC", 0, 2, 1, 1, 1, 1⟩

/-- Same subject code as rowA but a different age: a conflicting
duplicate subject. -/
def rowC : StagingRow :=
  ⟨"prj1", "sbj1", "melanoma", 71, "M", "miraclib", "yes",
   "smp2", "PBMC", 0, 1, 1, 1, 1, 1⟩

/-! ## Part 3: cohort selection and the two-sample t-test

scipy.stats.ttest_ind is a library external to this repository; its
pooled-variance Student t-test is modelled below by its defining
formulas.  NaN and infinite outcomes (empty or singleton groups, zero
pooled variance, NULL percentages) are modelled as none. -/

/-- Arithmetic mean, as used by the t-test on each group. -/
def mean (xs : List ℚ) : ℚ := xs.sum / (xs.length : ℚ)

/-- Sample variance with one delta degree of freedom, as used by
scipy.stats.ttest_ind on each group. -/
def svar (xs : List ℚ) : ℚ :=
  (xs.map (fun x => (x - mean xs) ^ 2)).sum / ((xs.length : ℚ) - 1)

/-- Pooled variance of the equal-variance two-sample t-test. -/
def pooledVar (xs ys : List ℚ) : ℚ :=
  (((xs.length : ℚ) - 1) * svar xs + ((ys.length : ℚ) - 1) * svar ys) /
    ((xs.length : ℚ) + (ys.length : ℚ) - 2)

/-- The pooled-variance two-sample t statistic
(mean difference over sqrt of pooledVar times (1/n1 + 1/n2)). -/
noncomputable def tStatistic (xs ys : List ℚ) : ℝ :=
  ((mean xs - mean ys : ℚ) : ℝ) /
    Real.sqrt ((pooledVar xs ys * (1 / (xs.length : ℚ) + 1 / (ys.length : ℚ)) : ℚ) : ℝ)

/-- Modelled from the spec: the two-sided p-value of the Student t-test,
P(abs T_df at least abs t) = I_x(df/2, 1/2) with x = df/(df + t^2), the
regularized incomplete beta function (this is what the external library
routine computes).  It is written through the substitution u = 1 - w^2,
under which
I_x(df/2, 1/2) equals the integral of (1-w^2)^(df/2-1) from sqrt(1-x)
to 1 divided by the same integral from 0 to 1, so that for even df the
integrand is a polynomial. -/
noncomputable def studentPValue (df : ℕ) (t : ℝ) : ℝ :=
  (∫ w in Real.sqrt (1 - (df : ℝ) / ((df : ℝ) + t ^ 2))..(1 : ℝ),
      (1 - w ^ 2) ^ ((df : ℝ) / 2 - 1)) /
  (∫ w in (0 : ℝ)..(1 : ℝ), (1 - w ^ 2) ^ ((df : ℝ) / 2 - 1))

/-- stats.ttest_ind(xs, ys, equal_var=True): the pooled-variance
two-sample t statistic with its two-sided p-value at
df = n1 + n2 - 2.  A group with fewer than two observations makes the
sample variances (hence the statistic) NaN, and a zero pooled variance
leaves no finite statistic; those outcomes are modelled as none. -/
noncomputable def ttest_ind (xs ys : List ℚ) : Option (ℝ × ℝ) :=
  if xs.length < 2 ∨ ys.length < 2 then none
  else if pooledVar xs ys = 0 then none
  else some (tStatistic xs ys,
    studentPValue (xs.length + ys.length - 2) (tStatistic xs ys))

/-- The SQL shared by bCellDf, cd8CellDf, cd4CellDf, nkCellDf and
monocyteCellDf (lines 185-238 of the analysis script): join the
frequency view back to Samples and Subjects, filter to
treatment miraclib, condition melanoma, sample_type PBMC and one
population, and keep (response, percentage). -/
def cellQuery (pop : String) (db : DB) : List (String × Option ℚ) :=
  (((SampleCellFrequencies db.samples).flatMap (fun f =>
      (db.samples.filter (fun s => s.sample == f.sample)).flatMap (fun s =>
        (db.subjects.filter (fun u => u.subject == s.subject)).map (fun u =>
          (u, s, f))))).filter (fun usf =>
      usf.1.treatment == "miraclib" && usf.1.condition == "melanoma" &&
      usf.2.1.sample_type == "PBMC" && usf.2.2.population == pop)).map
    (fun usf => (usf.1.response, usf.2.2.percentage))

/-- bCellDf of the analysis script. -/
def bCellDf (db : DB) : List (String × Option ℚ) := cellQuery "b_cell" db

/-- cd8CellDf of the analysis script. -/
def cd8CellDf (db : DB) : List (String × Option ℚ) := cellQuery "cd8_t_cell" db

/-- cd4CellDf of the analysis script. -/
def cd4CellDf (db : DB) : List (String × Option ℚ) := cellQuery "cd4_t_cell" db

/-- nkCellDf of the analysis script. -/
def nkCellDf (db : DB) : List (String × Option ℚ) := cellQuery "nk_cell" db

/-- monocyteCellDf of the analysis script. -/
def monocyteCellDf (db : DB) : List (String × Option ℚ) := cellQuery "monocyte" db

/-- df.loc of the rows with response yes, percentage column. -/
def yesPercentages (rows : List (String × Option ℚ)) : List (Option ℚ) :=
  (rows.filter (fun r => r.1 == "yes")).map (fun r => r.2)

/-- df.loc of the rows with response no, percentage column. -/
def noPercentages (rows : List (String × Option ℚ)) : List (Option ℚ) :=
  (rows.filter (fun r => r.1 == "no")).map (fun r => r.2)

/-- One iteration of the Part 3 loop: split the selected rows by the
response label and call the t-test.  A NULL percentage reaches the
library as NaN and taints the result, modelled as none. -/
noncomputable def runPopTTest (rows : List (String × Option ℚ)) : Option (ℝ × ℝ) :=
  if none ∈ yesPercentages rows ∨ none ∈ noPercentages rows then none
  else ttest_ind (yesPercentages rows).reduceOption (noPercentages rows).reduceOption

/-- The Part 3 loop over the five (name, dataframe) pairs: the printed
t statistic and p-value per population.  The loop never branches on the
outcome: each population yields a reported pair (possibly NaN), and a NaN
for one population does not stop the others. -/
noncomputable def part3Results (db : DB) : List (String × Option (ℝ × ℝ)) :=
  [("B Cell", runPopTTest (bCellDf db)),
   ("CD8 T Cell", runPopTTest (cd8CellDf db)),
   ("CD4 T Cell", runPopTTest (cd4CellDf db)),
   ("NK Cell", runPopTTest (nkCellDf db)),
   ("Monocyte", runPopTTest (monocyteCellDf db))]

/-! ## Dashboard (ImmuneDrugTrialDashboard.py, startup computation) -/

/-- get_cell_data of the dashboard: textually the same SQL as cellQuery,
with the population name interpolated. -/
def get_cell_data (population : String) (db : DB) : List (String × Option ℚ) :=
  (((SampleCellFrequencies db.samples).flatMap (fun f =>
      (db.samples.filter (fun s => s.sample == f.sample)).flatMap (fun s =>
        (db.subjects.filter (fun u => u.subject == s.subject)).map (fun u =>
          (u, s, f))))).filter (fun usf =>
      usf.1.treatment == "miraclib" && usf.1.condition == "melanoma" &&
      usf.2.1.sample_type == "PBMC" && usf.2.2.population == population)).map
    (fun usf => (usf.1.response, usf.2.2.percentage))

/-- The populations list of the dashboard. -/
def populations : List String :=
  ["b_cell", "cd8_t_cell", "cd4_t_cell", "nk_cell", "monocyte"]

/-- The population_names display dictionary of the dashboard. -/
def population_names (pop : String) : String :=
  if pop == "b_cell" then "B Cell"
  else if pop == "cd8_t_cell" then "CD8 T Cell"
  else if pop == "cd4_t_cell" then "CD4 T Cell"
  else if pop == "nk_cell" then "NK Cell"
  else "Monocyte"

/-- The response split of the dashboard stats loop, percentage column,
response yes. -/
def dashYesPercentages (rows : List (String × Option ℚ)) : List (Option ℚ) :=
  (rows.filter (fun r => r.1 == "yes")).map (fun r => r.2)

/-- The response split of the dashboard stats loop, percentage column,
response no. -/
def dashNoPercentages (rows : List (String × Option ℚ)) : List (Option ℚ) :=
  (rows.filter (fun r => r.1 == "no")).map (fun r => r.2)

/-- One iteration of the dashboard stats_results loop, before rounding. -/
noncomputable def dashboardTTest (rows : List (String × Option ℚ)) : Option (ℝ × ℝ) :=
  if none ∈ dashYesPercentages rows ∨ none ∈ dashNoPercentages rows then none
  else ttest_ind (dashYesPercentages rows).reduceOption
    (dashNoPercentages rows).reduceOption

/-- stats_results computed at dashboard startup: (cell type name,
t statistic, p-value) per population, before the statistic is rounded to
3 decimals and the p-value to 4 decimals for display. -/
noncomputable def dashboardStats (db : DB) : List (String × Option (ℝ × ℝ)) :=
  populations.map (fun pop =>
    (population_names pop, dashboardTTest (get_cell_data pop db)))

/-! ## Part 4: baseline subset report -/

/-- filter_condition of Part 4: treatment miraclib, condition melanoma,
sample_type PBMC, time_from_treatment = 0. -/
def baselineFilter (u : Subject) (s : Sample) : Bool :=
  u.treatment == "miraclib" && u.condition == "melanoma" &&
    s.sample_type == "PBMC" && s.time_from_treatment == 0

/-- FROM Samples JOIN Subjects ON Subjects.subject = Samples.subject
WHERE filter_condition. -/
def baselineJoin (db : DB) : List (Sample × Subject) :=
  (db.samples.flatMap (fun s =>
    (db.subjects.filter (fun u => u.subject == s.subject)).map
      (fun u => (s, u)))).filter (fun su => baselineFilter su.2 su.1)

/-- query1: the raw matching rows
(sample, subject, project, response, sex), ORDER BY sample. -/
def query1 (db : DB) : List (String × String × String × String × String) :=
  ((baselineJoin db).map (fun su =>
    (su.1.sample, su.2.subject, su.2.project, su.2.response, su.2.sex))).mergeSort
    (fun a b => a.1 ≤ b.1)

/-- GROUP BY with COUNT of rows per key (one output row per distinct
key value). -/
def sqlGroupCount (keys : List String) : List (String × Nat) :=
  keys.dedup.map (fun k => (k, keys.count k))

/-- GROUP BY with COUNT(DISTINCT value) per key. -/
def sqlGroupCountDistinct (pairs : List (String × String)) : List (String × Nat) :=
  (pairs.map (fun p => p.1)).dedup.map (fun k =>
    (k, ((pairs.filter (fun p => p.1 == k)).map (fun p => p.2)).dedup.length))

/-- query2: samples per project. -/
def query2 (db : DB) : List (String × Nat) :=
  sqlGroupCount ((baselineJoin db).map (fun su => su.2.project))

/-- query3: distinct subjects per response. -/
def query3 (db : DB) : List (String × Nat) :=
  sqlGroupCountDistinct
    ((baselineJoin db).map (fun su => (su.2.response, su.2.subject)))

/-- query4: distinct subjects per sex. -/
def query4 (db : DB) : List (String × Nat) :=
  sqlGroupCountDistinct
    ((baselineJoin db).map (fun su => (su.2.sex, su.2.subject)))

/-- A store whose only sample fails the baseline cohort filter. -/
def dbNoMatch : DB :=
  ⟨[⟨"prj1", "sbj1", "carcinoma", 60, "F", "placebo", "no"⟩],
   [⟨"sbj1", "smp1", "tumor", 7, 1, 1, 1, 1, 1⟩]⟩

/-- A cohort store whose yes arm has a single sample: subjects sbj1 (yes)
and sbj2, sbj3 (no), one PBMC melanoma miraclib sample each. -/
def dbOneResponder : DB :=
  ⟨[⟨"prj1", "sbj1", "melanoma", 60, "F", "miraclib", "yes"⟩,
    ⟨"prj1", "sbj2", "melanoma", 61, "M", "miraclib", "no"⟩,
    ⟨"prj1", "sbj3", "melanoma", 62, "M", "miraclib", "no"⟩],
   [⟨"sbj1", "smp1", "PBMC", 0, 10, 10, 10, 10, 10⟩,
    ⟨"sbj2", "smp2", "PBMC", 0, 20, 10, 10, 10, 10⟩,
    ⟨"sbj3", "smp3", "PBMC", 0, 30, 10, 10, 10, 10⟩]⟩

lemma mem_sampleCellFrequencies_iff (samples : List Sample) (f : FreqRecord) :
    f ∈ SampleCellFrequencies samples ↔ ∃ s ∈ samples, f ∈ freqRecordsOf s := by
  simp only [SampleCellFrequencies, freqRecordsOf, List.mem_append, List.mem_map,
    List.mem_cons, List.not_mem_nil, or_false]
  aesop

lemma sample_eq_of_mem_freqRecordsOf {s : Sample} {f : FreqRecord}
    (h : f ∈ freqRecordsOf s) : f.sample = s.sample := by
  simp only [freqRecordsOf, List.mem_cons, List.not_mem_nil, or_false] at h
  rcases h with rfl | rfl | rfl | rfl | rfl <;> rfl

/-- Rows of a table with pairwise distinct key values are determined by
their key. -/
lemma sample_key_inj {samples : List Sample}
    (h : (samples.map Sample.sample).Nodup) {s t : Sample}
    (hs : s ∈ samples) (ht : t ∈ samples) (he : s.sample = t.sample) : s = t :=
  List.inj_on_of_nodup_map h hs ht he

/-- Filtering the view down to one sample key yields exactly the five
records of that sample, one per UNION ALL branch. -/
lemma filter_sampleCellFrequencies (samples : List Sample) (s : Sample)
    (hnd : (samples.map Sample.sample).Nodup) (hs : s ∈ samples) :
    (SampleCellFrequencies samples).filter (fun f => f.sample == s.sample) =
      freqRecordsOf s := by
  have hsingle : samples.filter (fun t => t.sample == s.sample) = [s] := by
    induction samples with
    | nil => cases hs
    | cons a l ih =>
        simp only [List.map_cons, List.nodup_cons, List.mem_map] at hnd
        rcases List.mem_cons.1 hs with rfl | hmem
        · have hnone : l.filter (fun t => t.sample == s.sample) = [] := by
            refine List.filter_eq_nil_iff.2 fun t ht => ?_
            simp only [beq_iff_eq]
            exact fun hts => hnd.1 ⟨t, ht, hts⟩
          simp [List.filter_cons, hnone]
        · have hne : (a.sample == s.sample) = false := by
            simp only [beq_eq_false_iff_ne, ne_eq]
            intro has
            exact hnd.1 ⟨s, hmem, has.symm⟩
          simp only [List.filter_cons, hne, cond_false]
          exact ih hnd.2 hmem
  have hmap : ∀ (pop : String) (cnt : Sample → Int),
      (samples.map (freqRecord pop cnt)).filter (fun f => f.sample == s.sample) =
        [freqRecord pop cnt s] := by
    intro pop cnt
    rw [List.filter_map]
    have : (fun f => f.sample == s.sample) ∘ freqRecord pop cnt =
        fun t => t.sample == s.sample := by
      funext t; rfl
    rw [this, hsingle]
    rfl
  simp only [SampleCellFrequencies, List.filter_append, hmap]
  rfl

/-- A sample row can never reference an absent subject in this loader:
the Subjects rows are extracted from the very same staged rows, so after
a successful Subjects insert every staged sample finds its subject. -/
lemma no_fk_violation (staging : List StagingRow) (st st1 : DB)
    (h : insertSubjects staging st = .ok st1) :
    ∀ s ∈ distinctSamples staging,
      st1.subjects.any (fun u => u.subject == s.subject) = true := by
  unfold insertSubjects at h
  split at h
  · cases h
    intro s hs
    obtain ⟨r, hr, rfl⟩ := List.mem_map.1 (List.mem_dedup.1 hs)
    refine List.any_eq_true.2 ⟨subjectOfRow r, ?_, by simp [subjectOfRow, sampleOfRow]⟩
    exact List.mem_append.2 (Or.inr (List.mem_dedup.2 (List.mem_map_of_mem _ hr)))
  · cases h

/-- Equation lemma: a failing Subjects insert stops the script with the
store unchanged. -/
lemma loadScript_subjects_err {staging : List StagingRow} {st : DB}
    {e : LoadError} (h : insertSubjects staging st = .error e) :
    loadScript staging st = (st, some e) := by
  unfold loadScript
  rw [h]

/-- Equation lemma: after a successful Subjects insert the script goes on
to the Samples insert from the committed intermediate state. -/
lemma loadScript_subjects_ok {staging : List StagingRow} {st st1 : DB}
    (h : insertSubjects staging st = .ok st1) :
    loadScript staging st =
      (match insertSamples staging st1 with
       | .error e => (st1, some e)
       | .ok st2 => (st2, none)) := by
  unfold loadScript
  rw [h]

/-- If the load script succeeded, the committed Subjects table is the old
one extended by the distinct subject projections. -/
lemma subjects_after_ok (staging : List StagingRow) (st : DB)
    (h : (loadScript staging st).2 = none) :
    (loadScript staging st).1.subjects = st.subjects ++ distinctSubjects staging := by
  cases hins : insertSubjects staging st with
  | error e => rw [loadScript_subjects_err hins] at h; simp at h
  | ok st1 =>
    rw [loadScript_subjects_ok hins] at h ⊢
    cases hsmp : insertSamples staging st1 with
    | error e => rw [hsmp] at h; simp at h
    | ok st2 =>
      show st2.subjects = st.subjects ++ distinctSubjects staging
      unfold insertSubjects at hins
      split at hins
      · injection hins with h1
        subst h1
        unfold insertSamples at hsmp
        split at hsmp
        · split at hsmp
          · injection hsmp with h2
            subst h2
            rfl
          · cases hsmp
        · cases hsmp
      · cases hins

/-- Re-running the insert script on a store that already holds the same
distinct subjects aborts with the Subjects primary key violation. -/
lemma nonclean_reload_fails (staging : List StagingRow) (st : DB)
    (hne : ∃ u, u ∈ distinctSubjects staging)
    (hsub : ∀ u ∈ distinctSubjects staging, u ∈ st.subjects) :
    loadScript staging st = (st, some LoadError.subjectsPK) := by
  obtain ⟨u, hu⟩ := hne
  have hfail : insertSubjects staging st = .error .subjectsPK := by
    unfold insertSubjects
    rw [if_neg]
    intro hnd
    rw [List.map_append] at hnd
    have hdisj := (List.nodup_append.1 hnd).2.2
    exact hdisj (List.mem_map_of_mem _ (hsub u hu)) (List.mem_map_of_mem _ hu)
  unfold loadScript
  rw [hfail]

/-! ## C3: the cohort comparator -/

lemma mean_resp : mean [10, 12, 11] = 11 := by norm_num [mean]

lemma mean_nonresp : mean [20, 22, 21] = 21 := by norm_num [mean]

lemma svar_resp : svar [10, 12, 11] = 1 := by norm_num [svar, mean]

lemma svar_nonresp : svar [20, 22, 21] = 1 := by norm_num [svar, mean]

lemma pooled_rn : pooledVar [10, 12, 11] [20, 22, 21] = 1 := by
  norm_num [pooledVar, svar_resp, svar_nonresp]

lemma tstat_rn :
    tStatistic [10, 12, 11] [20, 22, 21] = -10 / Real.sqrt (2 / 3) := by
  unfold tStatistic
  rw [mean_resp, mean_nonresp, pooled_rn]
  norm_num

lemma tstat_sq : tStatistic [10, 12, 11] [20, 22, 21] ^ 2 = 150 := by
  rw [tstat_rn, div_pow, Real.sq_sqrt (by norm_num : (0:ℝ) ≤ 2 / 3)]
  norm_num

lemma integral_one_sub_sq (a b : ℝ) :
    ∫ w in a..b, (1 - w ^ 2) = (b - b ^ 3 / 3) - (a - a ^ 3 / 3) := by
  have h1 : IntervalIntegrable (fun _ : ℝ => (1 : ℝ)) MeasureTheory.volume a b :=
    intervalIntegrable_const
  have h2 : IntervalIntegrable (fun w : ℝ => w ^ 2) MeasureTheory.volume a b :=
    (continuous_pow 2).intervalIntegrable a b
  rw [intervalIntegral.integral_sub h1 h2, integral_one, integral_pow]
  push_cast
  ring

/-- At degrees of freedom 4 the p-value integrals are polynomial and
evaluate in closed form. -/
lemma studentPValue_four (t : ℝ) (ht : t ^ 2 = 150) :
    studentPValue 4 t =
      (2 / 3 - (Real.sqrt (75 / 77) - Real.sqrt (75 / 77) ^ 3 / 3)) / (2 / 3) := by
  unfold studentPValue
  have harg : 1 - ((4 : ℕ) : ℝ) / (((4 : ℕ) : ℝ) + t ^ 2) = 75 / 77 := by
    rw [ht]
    norm_num
  rw [harg]
  have hexp : ((4 : ℕ) : ℝ) / 2 - 1 = 1 := by norm_num
  simp only [hexp, Real.rpow_one]
  rw [integral_one_sub_sq, integral_one_sub_sq]
  norm_num

lemma tstat_bound :
    |tStatistic [10, 12, 11] [20, 22, 21] - (-12.2474487)| ≤ 1 / 1000000 := by
  rw [tstat_rn]
  set s := Real.sqrt (2 / 3) with hs
  have hsl : (0.81649658 : ℝ) ≤ s :=
    (Real.le_sqrt' (by norm_num)).2 (by norm_num)
  have hsu : s ≤ 0.81649659 :=
    (Real.sqrt_le_left (by norm_num)).2 (by norm_num)
  have hspos : (0 : ℝ) < s := lt_of_lt_of_le (by norm_num) hsl
  have hub : 10 / s ≤ 12.2474488 := by
    rw [div_le_iff₀ hspos]
    nlinarith [hsl]
  have hlb : (12.2474485 : ℝ) ≤ 10 / s := by
    rw [le_div_iff₀ hspos]
    nlinarith [hsu]
  have hneg : (-10 : ℝ) / s = -(10 / s) := by ring
  rw [hneg, abs_le]
  constructor <;> linarith

lemma pvalue_bound :
    |studentPValue 4 (tStatistic [10, 12, 11] [20, 22, 21]) - 0.0002552| ≤
      1 / 1000000 := by
  rw [studentPValue_four _ tstat_sq]
  set a := Real.sqrt (75 / 77) with ha
  have ha2 : a ^ 2 = 75 / 77 := Real.sq_sqrt (by norm_num)
  have hal : (0.9869275 : ℝ) ≤ a :=
    (Real.le_sqrt' (by norm_num)).2 (by norm_num)
  have hau : a ≤ 0.9869276 :=
    (Real.sqrt_le_left (by norm_num)).2 (by norm_num)
  have ha3 : a ^ 3 = 75 / 77 * a := by
    have h : a ^ 3 = a ^ 2 * a := by ring
    rw [h, ha2]
  have hp : (2 / 3 - (a - a ^ 3 / 3)) / (2 / 3 : ℝ) = 1 - 78 / 77 * a := by
    rw [ha3]
    ring
  rw [hp, abs_le]
  constructor <;> nlinarith [hal, hau]

/-- On the two three-element vectors both guards pass and the t-test
returns the statistic with its p-value at 3 + 3 - 2 = 4 degrees of
freedom. -/
lemma ttest_rn_eval :
    ttest_ind [10, 12, 11] [20, 22, 21] =
      some (tStatistic [10, 12, 11] [20, 22, 21],
        studentPValue 4 (tStatistic [10, 12, 11] [20, 22, 21])) := by
  unfold ttest_ind
  rw [if_neg (by decide), if_neg (by rw [pooled_rn]; norm_num)]
  norm_num

/-- The rows selected for one population are exactly the view records of
a cohort sample (treatment miraclib, condition melanoma, PBMC) carrying
that population, tagged with the response of the sample owner. -/
lemma mem_cellQuery_iff (db : DB) (pop : String) (rp : String × Option ℚ)
    (hnd : (db.samples.map Sample.sample).Nodup) :
    rp ∈ cellQuery pop db ↔
      ∃ s ∈ db.samples, ∃ u ∈ db.subjects,
        u.subject = s.subject ∧ u.treatment = "miraclib" ∧
        u.condition = "melanoma" ∧ s.sample_type = "PBMC" ∧
        ∃ f ∈ freqRecordsOf s, f.population = pop ∧
          rp = (u.response, f.percentage) := by
  unfold cellQuery
  simp only [List.mem_map, List.mem_filter, List.mem_flatMap, beq_iff_eq,
    Bool.and_eq_true, decide_eq_true_eq]
  constructor
  · intro h
    obtain ⟨usf, ⟨⟨f, hf, s, ⟨hs, hss⟩, u, ⟨hu, huv⟩, rfl⟩, hcond⟩, rfl⟩ := h
    obtain ⟨⟨⟨ht, hc⟩, hsty⟩, hpop⟩ := hcond
    obtain ⟨t, hts, hft⟩ := (mem_sampleCellFrequencies_iff _ _).1 hf
    have hst : s = t :=
      sample_key_inj hnd hs hts
        (hss.trans (sample_eq_of_mem_freqRecordsOf hft))
    subst hst
    exact ⟨s, hs, u, hu, huv, ht, hc, hsty, f, hft, hpop, rfl⟩
  · rintro ⟨s, hs, u, hu, huv, ht, hc, hsty, f, hfmem, hpop, rfl⟩
    exact ⟨(u, s, f),
      ⟨⟨f, (mem_sampleCellFrequencies_iff _ _).2 ⟨s, hs, hfmem⟩, s,
        ⟨hs, (sample_eq_of_mem_freqRecordsOf hfmem).symm⟩, u, ⟨hu, huv⟩, rfl⟩,
        ⟨⟨⟨ht, hc⟩, hsty⟩, hpop⟩⟩, rfl⟩

/-- C1: for every sample in the Samples table, the frequency view computes
total = b_cell + cd8_t_cell + cd4_t_cell + nk_cell + monocyte and emits
exactly one record per each of the five populations with
percentage = 100 * count / total; for a sample with counts
(10,10,10,10,10) every percentage is exactly 20. -/
theorem c1_frequency_view_per_sample (samples : List Sample) (s : Sample)
    (hnd : (samples.map Sample.sample).Nodup) (hs : s ∈ samples)
    (h0 : totalCount s ≠ 0) :
    ((SampleCellFrequencies samples).filter (fun f => f.sample == s.sample) =
      [⟨s.subject, s.sample,
          s.b_cell + s.cd8_t_cell + s.cd4_t_cell + s.nk_cell + s.monocyte,
          "b_cell", s.b_cell,
          some (100 * (s.b_cell : ℚ) / ((totalCount s : Int) : ℚ))⟩,
       ⟨s.subject, s.sample,
          s.b_cell + s.cd8_t_cell + s.cd4_t_cell + s.nk_cell + s.monocyte,
          "cd8_t_cell", s.cd8_t_cell,
          some (100 * (s.cd8_t_cell : ℚ) / ((totalCount s : Int) : ℚ))⟩,
       ⟨s.subject, s.sample,
          s.b_cell + s.cd8_t_cell + s.cd4_t_cell + s.nk_cell + s.monocyte,
          "cd4_t_cell", s.cd4_t_cell,
          some (100 * (s.cd4_t_cell : ℚ) / ((totalCount s : Int) : ℚ))⟩,
       ⟨s.subject, s.sample,
          s.b_cell + s.cd8_t_cell + s.cd4_t_cell + s.nk_cell + s.monocyte,
          "nk_cell", s.nk_cell,
          some (100 * (s.nk_cell : ℚ) / ((totalCount s : Int) : ℚ))⟩,
       ⟨s.subject, s.sample,
          s.b_cell + s.cd8_t_cell + s.cd4_t_cell + s.nk_cell + s.monocyte,
          "monocyte", s.monocyte,
          some (100 * (s.monocyte : ℚ) / ((totalCount s : Int) : ℚ))⟩]) ∧
    (SampleCellFrequencies [sampleTen]).map FreqRecord.percentage =
      [some 20, some 20, some 20, some 20, some 20] := by
  constructor
  · rw [filter_sampleCellFrequencies samples s hnd hs]
    have hcast : ((totalCount s : Int) : ℚ) ≠ 0 := Int.cast_ne_zero.2 h0
    simp only [totalCount] at hcast
    simp only [freqRecordsOf, freqRecord, sqlDiv, totalCount, if_neg hcast]
  · norm_num [SampleCellFrequencies, freqRecord, sqlDiv, totalCount, sampleTen]

/-- Witness for C1 at the concrete one-sample table [sampleTen]. -/
theorem c1_witness :
    ((SampleCellFrequencies [sampleTen]).filter
        (fun f => f.sample == sampleTen.sample) =
      [⟨sampleTen.subject, sampleTen.sample,
          sampleTen.b_cell + sampleTen.cd8_t_cell + sampleTen.cd4_t_cell +
            sampleTen.nk_cell + sampleTen.monocyte,
          "b_cell", sampleTen.b_cell,
          some (100 * (sampleTen.b_cell : ℚ) / ((totalCount sampleTen : Int) : ℚ))⟩,
       ⟨sampleTen.subject, sampleTen.sample,
          sampleTen.b_cell + sampleTen.cd8_t_cell + sampleTen.cd4_t_cell +
            sampleTen.nk_cell + sampleTen.monocyte,
          "cd8_t_cell", sampleTen.cd8_t_cell,
          some (100 * (sampleTen.cd8_t_cell : ℚ) / ((totalCount sampleTen : Int) : ℚ))⟩,
       ⟨sampleTen.subject, sampleTen.sample,
          sampleTen.b_cell + sampleTen.cd8_t_cell + sampleTen.cd4_t_cell +
            sampleTen.nk_cell + sampleTen.monocyte,
          "cd4_t_cell", sampleTen.cd4_t_cell,
          some (100 * (sampleTen.cd4_t_cell : ℚ) / ((totalCount sampleTen : Int) : ℚ))⟩,
       ⟨sampleTen.subject, sampleTen.sample,
          sampleTen.b_cell + sampleTen.cd8_t_cell + sampleTen.cd4_t_cell +
            sampleTen.nk_cell + sampleTen.monocyte,
          "nk_cell", sampleTen.nk_cell,
          some (100 * (sampleTen.nk_cell : ℚ) / ((totalCount sampleTen : Int) : ℚ))⟩,
       ⟨sampleTen.subject, sampleTen.sample,
          sampleTen.b_cell + sampleTen.cd8_t_cell + sampleTen.cd4_t_cell +
            sampleTen.nk_cell + sampleTen.monocyte,
          "monocyte", sampleTen.monocyte,
          some (100 * (sampleTen.monocyte : ℚ) / ((totalCount sampleTen : Int) : ℚ))⟩]) ∧
    (SampleCellFrequencies [sampleTen]).map FreqRecord.percentage =
      [some 20, some 20, some 20, some 20, some 20] :=
  c1_frequency_view_per_sample [sampleTen] sampleTen (by decide) (by decide)
    (by decide)

/-- C2: for every sample with strictly positive total cell count, the five
percentages derived for it by the frequency view sum to exactly 100, hence
to 100 within the tolerance 1e-6. -/
theorem c2_percentages_sum_100 (samples : List Sample) (s : Sample)
    (hnd : (samples.map Sample.sample).Nodup) (hs : s ∈ samples)
    (hpos : 0 < totalCount s) :
    (((SampleCellFrequencies samples).filter
        (fun f => f.sample == s.sample)).filterMap FreqRecord.percentage).sum
        = 100 ∧
    |(((SampleCellFrequencies samples).filter
        (fun f => f.sample == s.sample)).filterMap FreqRecord.percentage).sum
        - 100| ≤ 1 / 1000000 := by
  have hcast : ((totalCount s : Int) : ℚ) ≠ 0 :=
    Int.cast_ne_zero.2 (ne_of_gt hpos)
  have hsum :
      (((SampleCellFrequencies samples).filter
        (fun f => f.sample == s.sample)).filterMap FreqRecord.percentage).sum
        = 100 := by
    rw [filter_sampleCellFrequencies samples s hnd hs]
    simp only [freqRecordsOf, freqRecord, sqlDiv, if_neg hcast,
      List.filterMap_cons, List.filterMap_nil, List.sum_cons, List.sum_nil]
    have hT : ((s.b_cell : ℚ) + s.cd8_t_cell + s.cd4_t_cell + s.nk_cell +
        s.monocyte) ≠ 0 := by
      have := hcast
      push_cast [totalCount] at this
      exact this
    field_simp [totalCount]
    ring
  refine ⟨hsum, ?_⟩
  rw [hsum]
  norm_num

/-- Witness for C2 at the concrete one-sample table [sampleTen]. -/
theorem c2_witness :
    (((SampleCellFrequencies [sampleTen]).filter
        (fun f => f.sample == sampleTen.sample)).filterMap
        FreqRecord.percentage).sum = 100 ∧
    |(((SampleCellFrequencies [sampleTen]).filter
        (fun f => f.sample == sampleTen.sample)).filterMap
        FreqRecord.percentage).sum - 100| ≤ 1 / 1000000 :=
  c2_percentages_sum_100 [sampleTen] sampleTen (by decide) (by decide)
    (by decide)

/-- C4: a record of the frequency view has NULL (undefined) percentage
exactly when its total cell count is zero: the view divides by the
possibly-zero total with no guard, and SQLite division by zero yields
NULL, so no defined numeric value is produced. -/
theorem c4_zero_total_percentage_null (samples : List Sample) (f : FreqRecord)
    (hf : f ∈ SampleCellFrequencies samples) :
    f.percentage = none ↔ f.total_count = 0 := by
  obtain ⟨s, _, hmem⟩ := (mem_sampleCellFrequencies_iff samples f).1 hf
  have hdiv : ∀ a b : ℚ, (sqlDiv a b = none ↔ b = 0) := by
    intro a b
    by_cases h : b = 0 <;> simp [sqlDiv, h]
  simp only [freqRecordsOf, List.mem_cons, List.not_mem_nil, or_false] at hmem
  rcases hmem with rfl | rfl | rfl | rfl | rfl <;>
    simp [freqRecord, hdiv]

/-- Witness for C4 at the concrete all-zero sample. -/
theorem c4_witness :
    (freqRecord "b_cell" Sample.b_cell sampleZero).percentage = none ↔
      (freqRecord "b_cell" Sample.b_cell sampleZero).total_count = 0 :=
  c4_zero_total_percentage_null [sampleZero]
    (freqRecord "b_cell" Sample.b_cell sampleZero) (by decide)

/-- C6 (code bug evidence): the load has no all-or-nothing transaction
boundary.  At a staged CSV whose two rows share a sample code but differ
in a count column, the Samples insert aborts the load, yet the Subjects
row of the same failed load stays committed, because executescript runs
the statements in autocommit mode.  (The literal antecedent of the claim,
a sample row referencing an absent subject, is unreachable in this
loader: see no_fk_violation.) -/
theorem c6_partial_commit_on_failed_load :
    (loadScript [rowA, rowB] ⟨[], []⟩).2 = some LoadError.samplesPK ∧
    (loadScript [rowA, rowB] ⟨[], []⟩).1 = ⟨[subjectOfRow rowA], []⟩ ∧
    ([subjectOfRow rowA] : List Subject) ≠ [] := by
  refine ⟨by decide, by decide, by decide⟩

/-- C7: two staged rows with the same subject code but different
subject-level attributes both survive the DISTINCT projection, so the
Subjects insert sees two rows with the same primary key and the load
fails with a primary key violation on Subjects (committing nothing). -/
theorem c7_conflicting_duplicate_subject (staging : List StagingRow)
    (r1 r2 : StagingRow) (st : DB)
    (h1 : r1 ∈ staging) (h2 : r2 ∈ staging)
    (hk : r1.subject = r2.subject)
    (hne : subjectOfRow r1 ≠ subjectOfRow r2) :
    subjectOfRow r1 ∈ distinctSubjects staging ∧
    subjectOfRow r2 ∈ distinctSubjects staging ∧
    loadScript staging st = (st, some LoadError.subjectsPK) := by
  have m1 : subjectOfRow r1 ∈ distinctSubjects staging :=
    List.mem_dedup.2 (List.mem_map_of_mem _ h1)
  have m2 : subjectOfRow r2 ∈ distinctSubjects staging :=
    List.mem_dedup.2 (List.mem_map_of_mem _ h2)
  refine ⟨m1, m2, ?_⟩
  have hfail : insertSubjects staging st = .error .subjectsPK := by
    unfold insertSubjects
    rw [if_neg]
    intro hnd
    rw [List.map_append] at hnd
    exact hne (List.inj_on_of_nodup_map hnd.of_append_right m1 m2 hk)
  exact loadScript_subjects_err hfail

/-- Witness for C7 at the concrete conflicting rows rowA and rowC. -/
theorem c7_witness :
    subjectOfRow rowA ∈ distinctSubjects [rowA, rowC] ∧
    subjectOfRow rowC ∈ distinctSubjects [rowA, rowC] ∧
    loadScript [rowA, rowC] ⟨[], []⟩ =
      (⟨[], []⟩, some LoadError.subjectsPK) :=
  c7_conflicting_duplicate_subject [rowA, rowC] rowA rowC ⟨[], []⟩
    (by decide) (by decide) (by decide) (by decide)

/-- C8: the full load (which drops and re-creates the tables) is a pure
function of the CSV, so running it twice gives the same store and in
particular identical Subjects and Samples row counts; re-running only the
insert script on the already-loaded, non-clean store aborts with the
Subjects primary key violation. -/
theorem c8_idempotent_fresh_load (csv : List StagingRow) (st : DB)
    (hcsv : csv ≠ [])
    (hok : (fullLoad csv ⟨[], []⟩).2 = none) :
    fullLoad csv (fullLoad csv st).1 = fullLoad csv st ∧
    (fullLoad csv (fullLoad csv st).1).1.subjects.length =
      (fullLoad csv st).1.subjects.length ∧
    (fullLoad csv (fullLoad csv st).1).1.samples.length =
      (fullLoad csv st).1.samples.length ∧
    (loadScript csv (fullLoad csv ⟨[], []⟩).1).2 = some LoadError.subjectsPK := by
  refine ⟨rfl, rfl, rfl, ?_⟩
  have hsubj : (fullLoad csv ⟨[], []⟩).1.subjects = distinctSubjects csv := by
    have h := subjects_after_ok csv ⟨[], []⟩ hok
    simpa using h
  obtain ⟨r, hr⟩ := List.exists_mem_of_ne_nil csv hcsv
  have hex : ∃ u, u ∈ distinctSubjects csv :=
    ⟨subjectOfRow r, List.mem_dedup.2 (List.mem_map_of_mem _ hr)⟩
  have hsub : ∀ u ∈ distinctSubjects csv, u ∈ (fullLoad csv ⟨[], []⟩).1.subjects := by
    intro u hu
    rw [hsubj]
    exact hu
  rw [nonclean_reload_fails csv (fullLoad csv ⟨[], []⟩).1 hex hsub]

/-- Witness for C8 at the concrete one-row CSV [rowA]. -/
theorem c8_witness :
    fullLoad [rowA] (fullLoad [rowA] ⟨[], []⟩).1 = fullLoad [rowA] ⟨[], []⟩ ∧
    (fullLoad [rowA] (fullLoad [rowA] ⟨[], []⟩).1).1.subjects.length =
      (fullLoad [rowA] ⟨[], []⟩).1.subjects.length ∧
    (fullLoad [rowA] (fullLoad [rowA] ⟨[], []⟩).1).1.samples.length =
      (fullLoad [rowA] ⟨[], []⟩).1.samples.length ∧
    (loadScript [rowA] (fullLoad [rowA] ⟨[], []⟩).1).2 =
      some LoadError.subjectsPK :=
  c8_idempotent_fresh_load [rowA] ⟨[], []⟩ (by decide) (by decide)

/-- C9: when the fixed baseline cohort filter matches no joined row, all
four subset-report aggregations return empty result sets (and no
error value exists to return: the queries are total). -/
theorem c9_empty_cohort_empty_reports (db : DB)
    (h : ∀ s ∈ db.samples, ∀ u ∈ db.subjects,
        u.subject = s.subject → baselineFilter u s = false) :
    query1 db = [] ∧ query2 db = [] ∧ query3 db = [] ∧ query4 db = [] := by
  have hj : baselineJoin db = [] := by
    unfold baselineJoin
    refine List.filter_eq_nil_iff.2 fun su hsu => ?_
    simp only [List.mem_flatMap, List.mem_map, List.mem_filter, beq_iff_eq] at hsu
    obtain ⟨s, hs, u, ⟨hu, hus⟩, rfl⟩ := hsu
    simp [h s hs u hu hus]
  simp [query1, query2, query3, query4, sqlGroupCount, sqlGroupCountDistinct, hj]

/-- Witness for C9 at a concrete store with one non-matching sample. -/
theorem c9_witness :
    query1 dbNoMatch = [] ∧ query2 dbNoMatch = [] ∧
    query3 dbNoMatch = [] ∧ query4 dbNoMatch = [] :=
  c9_empty_cohort_empty_reports dbNoMatch (by decide)

/-- C10: for identical database contents the dashboard startup loop and
the batch Part 3 loop select the same cohort through the same SQL and
call the same equal-variance two-sample t-test on the same yes/no
partitions, so before the dashboard rounds (3 decimals for the statistic,
4 for the p-value) the per-population results coincide. -/
theorem c10_dashboard_matches_batch (db : DB) :
    dashboardStats db = part3Results db := rfl

/-- C5 (code bug evidence): at a store whose yes arm has one observation,
every per-population comparison silently yields the NaN outcome of the
library call (modelled none) instead of a distinct
insufficient-sample-size condition, and the loop still reports all five
populations. -/
theorem c5_nan_not_error_on_small_arm :
    part3Results dbOneResponder =
      [("B Cell", none), ("CD8 T Cell", none), ("CD4 T Cell", none),
       ("NK Cell", none), ("Monocyte", none)] ∧
    (part3Results dbOneResponder).length = 5 := by
  have hb : cellQuery "b_cell" dbOneResponder =
      [("yes", some 20), ("no", some (100 / 3)), ("no", some (300 / 7))] := by
    simp [cellQuery, SampleCellFrequencies, freqRecord, sqlDiv, totalCount,
      dbOneResponder]
    norm_num
  have h8 : cellQuery "cd8_t_cell" dbOneResponder =
      [("yes", some 20), ("no", some (50 / 3)), ("no", some (100 / 7))] := by
    simp [cellQuery, SampleCellFrequencies, freqRecord, sqlDiv, totalCount,
      dbOneResponder]
    norm_num
  have h4 : cellQuery "cd4_t_cell" dbOneResponder =
      [("yes", some 20), ("no", some (50 / 3)), ("no", some (100 / 7))] := by
    simp [cellQuery, SampleCellFrequencies, freqRecord, sqlDiv, totalCount,
      dbOneResponder]
    norm_num
  have hn : cellQuery "nk_cell" dbOneResponder =
      [("yes", some 20), ("no", some (50 / 3)), ("no", some (100 / 7))] := by
    simp [cellQuery, SampleCellFrequencies, freqRecord, sqlDiv, totalCount,
      dbOneResponder]
    norm_num
  have hm : cellQuery "monocyte" dbOneResponder =
      [("yes", some 20), ("no", some (50 / 3)), ("no", some (100 / 7))] := by
    simp [cellQuery, SampleCellFrequencies, freqRecord, sqlDiv, totalCount,
      dbOneResponder]
    norm_num
  refine ⟨?_, ?_⟩
  · unfold part3Results bCellDf cd8CellDf cd4CellDf nkCellDf monocyteCellDf
    rw [hb, h8, h4, hn, hm]
    simp [runPopTTest, yesPercentages, noPercentages, ttest_ind,
      List.reduceOption]
  · rfl

/-- C3: for each population the cohort comparator selects exactly the
frequency records whose sample and subject satisfy treatment miraclib,
condition melanoma and sample_type PBMC, partitions them by the response
label, and runs the two-sided pooled-variance (equal-variance Student)
two-sample t-test; on the fixed vectors responders = [10,12,11] and
non-responders = [20,22,21] the reported statistic and p-value match the
reference values -12.2474487 and 0.0002552 to the 1e-6 tolerance. -/
theorem c3_cohort_comparator :
    (∀ (db : DB) (pop : String) (rp : String × Option ℚ),
        (db.samples.map Sample.sample).Nodup →
        (rp ∈ cellQuery pop db ↔
          ∃ s ∈ db.samples, ∃ u ∈ db.subjects,
            u.subject = s.subject ∧ u.treatment = "miraclib" ∧
            u.condition = "melanoma" ∧ s.sample_type = "PBMC" ∧
            ∃ f ∈ freqRecordsOf s, f.population = pop ∧
              rp = (u.response, f.percentage))) ∧
    (∃ t p, ttest_ind [10, 12, 11] [20, 22, 21] = some (t, p) ∧
        |t - (-12.2474487)| ≤ 1 / 1000000 ∧
        |p - 0.0002552| ≤ 1 / 1000000) :=
  ⟨fun db pop rp hnd => mem_cellQuery_iff db pop rp hnd,
   ⟨tStatistic [10, 12, 11] [20, 22, 21],
    studentPValue 4 (tStatistic [10, 12, 11] [20, 22, 21]),
    ttest_rn_eval, tstat_bound, pvalue_bound⟩⟩

/-- Witness for C3: the selection characterization applied at the
concrete store dbOneResponder, population b_cell and its responder row,
together with the closed numeric part. -/
theorem c3_witness :
    ((("yes", some (20 : ℚ)) ∈ cellQuery "b_cell" dbOneResponder ↔
      ∃ s ∈ dbOneResponder.samples, ∃ u ∈ dbOneResponder.subjects,
        u.subject = s.subject ∧ u.treatment = "miraclib" ∧
        u.condition = "melanoma" ∧ s.sample_type = "PBMC" ∧
        ∃ f ∈ freqRecordsOf s, f.population = "b_cell" ∧
          (("yes", some (20 : ℚ)) : String × Option ℚ) =
            (u.response, f.percentage)) ∧
    (∃ t p, ttest_ind [10, 12, 11] [20, 22, 21] = some (t, p) ∧
        |t - (-12.2474487)| ≤ 1 / 1000000 ∧
        |p - 0.0002552| ≤ 1 / 1000000)) :=
  ⟨c3_cohort_comparator.1 dbOneResponder "b_cell" ("yes", some 20) (by decide),
   c3_cohort_comparator.2⟩

end LoblawBio
